import Mathlib

/-!
Shallow embedding of the Vulkan rendering context recording core
(src/vita3k/renderer/src/vulkan/context.cpp) of the Vita3K project:
the per-render-target recording state machine (start_recording,
start_render_pass, stop_render_pass, stop_recording), the context
binder (set_context), and the fence-wait / notification dispatcher
(wait_thread_function).

Modelling conventions:
  - GPU handles (command buffers, fences, descriptor sets, framebuffers)
    are natural-number identifiers; 0 stands for a null handle. Fresh
    handles are drawn from a counter carried in the context state
    (a model of the device's allocator).
  - Guest pointers are natural-number addresses; 0 is the null address
    (matching the truthiness test on Ptr in the C++ source).
  - Every externally visible action (logging, Vulkan calls, queue
    pushes, guest-memory writes) is recorded in an effect trace, so that
    ordering claims become statements about the trace.
  - External collaborators (format translation, render-pass and
    framebuffer caches) are passed in as oracle functions; the calls to
    them are recorded in the trace with their exact arguments.
  - The fence wait in the dispatcher is modelled on its success path
    (a wait failure is a fatal assertion in the source).
-/

namespace Vita3K

/-- A guest notification: address (0 = null) and value.
Mirrors SceGxmNotification. -/
structure SceGxmNotification where
  address : Nat
  value : Nat
deriving DecidableEq, Repr, Inhabited

/-- Color surface descriptor fields read by context.cpp. -/
structure SceGxmColorSurface where
  colorFormat : Nat
  gamma : Nat
  data_address : Nat
  downscale : Bool
deriving DecidableEq, Repr, Inhabited

/-- Depth-stencil surface descriptor fields read by context.cpp.
backgroundDepth is a float in the source; it is only copied around
here, so it is modelled as an opaque payload. -/
structure SceGxmDepthStencilSurface where
  depthData_address : Nat
  stencilData_address : Nat
  zlsControl : Nat
  backgroundDepth : Nat
  control_content : Nat
deriving DecidableEq, Repr, Inhabited

/-- The Vulkan formats context.cpp distinguishes by name. -/
inductive VkFormat where
  | r8g8b8a8Unorm
  | r8g8b8a8Srgb
  | otherFormat (n : Nat)
deriving DecidableEq, Repr, Inhabited

/-- Stand-in for the SCE_GXM_COLOR_BASE_FORMAT_U8U8U8U8 enumerator
(its numeric value is never used by context.cpp, only its identity). -/
def SCE_GXM_COLOR_BASE_FORMAT_U8U8U8U8 : Nat := 0

/-- A completion request consumed by the dispatcher thread.
Mirrors the tagged variant pushed on the request queue. -/
inductive Request where
  | notificationReq (n1 n2 : SceGxmNotification) (fence : Nat)
  | frameDoneReq (frame_timestamp : Nat)
  | postSurfaceSyncReq (cache_info : Nat)
deriving DecidableEq, Repr, Inhabited

/-- Externally visible actions of the render thread and the dispatcher,
in the order they are performed. -/
inductive Effect where
  | logError (msg : String)
  | logWarn (msg : String)
  | allocateCommandBuffer (id : Nat)
  | createFence (id : Nat)
  | beginCmdBuffer (id : Nat)
  | endCmdBuffer (id : Nat)
  | setViewport
  | setScissor
  | syncDepthBias
  | syncPointLineWidth
  | syncStencilFunc (back_stencil : Bool)
  | endQuery (idx : Nat)
  | copyQueryPoolResults (count : Nat)
  | performSurfaceSync
  | endRenderPass
  | submit (cmd_buffers : List Nat) (fence : Nat)
  | pushRequest (r : Request)
  | setRenderTarget
  | retrieveRenderPass (fmt : VkFormat) (zlsControl : Nat)
  | retrieveFramebuffer (color : Option SceGxmColorSurface)
      (ds : Option SceGxmDepthStencilSurface) (render_pass : Nat)
      (width height : Nat)
  | syncMask
  | beginRenderPass (render_pass framebuffer width height : Nat)
      (backgroundDepth stencil_clear : Nat)
  | allocateDescriptorSet (id : Nat)
  | updateDescriptorSets (count : Nat)
  | waitFences (fences : List Nat)
  | writeGuest (address value : Nat)
  | notifyAll
  | setLastFrameWaited (frame_timestamp : Nat)
  | performPostSurfaceSync (cache_info : Nat)
deriving DecidableEq, Repr, Inhabited

/-! ## The fence-wait / notification dispatcher

`wait_thread_function` keeps a batch of pending fences; `wait_for_fences`
flushes it (waits on all of them, then clears the batch) when nonempty.
Each request is handled by the visit lambda, modelled by `dispatch_one`;
the loop over the popped requests is `dispatch_loop`, taking the requests
in the order the queue delivers them. -/

/-- The wait_for_fences lambda of wait_thread_function: if the pending
batch is nonempty, wait on all of it (success path) and clear it.
Returns the emitted effects and the new pending batch. -/
def wait_for_fences (fences : List Nat) : List Effect × List Nat :=
  if fences.isEmpty then ([], fences)
  else ([Effect.waitFences fences], [])

/-- One iteration of the dispatcher loop body: handle a single popped
request given the current pending-fence batch. Returns the effects
emitted and the updated batch. -/
def dispatch_one (fences : List Nat) : Request → List Effect × List Nat
  | Request.notificationReq n1 n2 f =>
    let fences2 := fences ++ [f]
    if n1.address ≠ 0 ∨ n2.address ≠ 0 then
      let flush := wait_for_fences fences2
      (flush.1
        ++ (if n1.address ≠ 0 then [Effect.writeGuest n1.address n1.value] else [])
        ++ (if n2.address ≠ 0 then [Effect.writeGuest n2.address n2.value] else [])
        ++ [Effect.notifyAll],
       flush.2)
    else ([], fences2)
  | Request.frameDoneReq ts =>
    let flush := wait_for_fences fences
    (flush.1 ++ [Effect.setLastFrameWaited ts], flush.2)
  | Request.postSurfaceSyncReq info =>
    let flush := wait_for_fences fences
    (flush.1 ++ [Effect.performPostSurfaceSync info], flush.2)

/-- The dispatcher loop over the sequence of requests popped from the
queue (the queue delivers them in push order), starting from a pending
batch. Returns the full effect trace and the final pending batch. -/
def dispatch_loop (fences : List Nat) : List Request → List Effect × List Nat
  | [] => ([], fences)
  | r :: rs =>
    let step := dispatch_one fences r
    let rest := dispatch_loop step.2 rs
    (step.1 ++ rest.1, rest.2)

/-- The fence carried by a request, if any. -/
def reqFence : Request → List Nat
  | Request.notificationReq _ _ f => [f]
  | Request.frameDoneReq _ => []
  | Request.postSurfaceSyncReq _ => []

/-- All fences carried by a list of requests, in order. -/
def reqFences : List Request → List Nat
  | [] => []
  | r :: rs => reqFence r ++ reqFences rs

/-- All fences appearing in waitFences events of a trace, in order. -/
def traceWaits : List Effect → List Nat
  | [] => []
  | Effect.waitFences fs :: t => fs ++ traceWaits t
  | _ :: t => traceWaits t

lemma traceWaits_append (s t : List Effect) :
    traceWaits (s ++ t) = traceWaits s ++ traceWaits t := by
  induction s with
  | nil => rfl
  | cons e s ih =>
    cases e <;> simp [traceWaits, ih]

lemma wait_for_fences_account (fences : List Nat) :
    traceWaits (wait_for_fences fences).1 ++ (wait_for_fences fences).2
      = fences := by
  by_cases h : fences.isEmpty
  · simp [wait_for_fences, h, traceWaits, List.isEmpty_iff.mp h]
  · simp [wait_for_fences, h, traceWaits]

/-- Fence accounting for a single dispatch step: the fences waited on in
its trace plus the fences left pending are exactly the incoming pending
fences plus the fence of the request, in order. -/
lemma dispatch_one_account (fences : List Nat) (r : Request) :
    traceWaits (dispatch_one fences r).1 ++ (dispatch_one fences r).2
      = fences ++ reqFence r := by
  cases r with
  | notificationReq n1 n2 f =>
    by_cases h : n1.address ≠ 0 ∨ n2.address ≠ 0
    · simp only [dispatch_one, if_pos h, reqFence]
      rw [traceWaits_append, traceWaits_append, traceWaits_append]
      have h2 : traceWaits (if n1.address ≠ 0
          then [Effect.writeGuest n1.address n1.value] else []) = [] := by
        by_cases hn : n1.address ≠ 0 <;> simp [hn, traceWaits]
      have h3 : traceWaits (if n2.address ≠ 0
          then [Effect.writeGuest n2.address n2.value] else []) = [] := by
        by_cases hn : n2.address ≠ 0 <;> simp [hn, traceWaits]
      rw [h2, h3]
      simpa [traceWaits] using wait_for_fences_account (fences ++ [f])
    · simp [dispatch_one, if_neg h, reqFence, traceWaits]
  | frameDoneReq ts =>
    simp only [dispatch_one, reqFence]
    rw [traceWaits_append]
    simpa [traceWaits] using wait_for_fences_account fences
  | postSurfaceSyncReq info =>
    simp only [dispatch_one, reqFence]
    rw [traceWaits_append]
    simpa [traceWaits] using wait_for_fences_account fences

/-- Fence accounting for the whole dispatcher loop. -/
lemma dispatch_loop_account (rs : List Request) (fences : List Nat) :
    traceWaits (dispatch_loop fences rs).1 ++ (dispatch_loop fences rs).2
      = fences ++ reqFences rs := by
  induction rs generalizing fences with
  | nil => simp [dispatch_loop, traceWaits, reqFences]
  | cons r rs ih =>
    simp only [dispatch_loop, reqFences]
    rw [traceWaits_append, List.append_assoc, ih,
      ← List.append_assoc, dispatch_one_account, List.append_assoc]

/-- The dispatcher loop splits along an append of the request list. -/
lemma dispatch_loop_append (xs ys : List Request) (fences : List Nat) :
    dispatch_loop fences (xs ++ ys)
      = ((dispatch_loop fences xs).1
          ++ (dispatch_loop (dispatch_loop fences xs).2 ys).1,
         (dispatch_loop (dispatch_loop fences xs).2 ys).2) := by
  induction xs generalizing fences with
  | nil => simp [dispatch_loop]
  | cons r xs ih =>
    simp [dispatch_loop, ih, List.append_assoc]

/-- A fence appearing in the waits of a trace appears in some waitFences
event of that trace. -/
lemma mem_traceWaits (f : Nat) (t : List Effect) (h : f ∈ traceWaits t) :
    ∃ t1 fs t2, t = t1 ++ Effect.waitFences fs :: t2 ∧ f ∈ fs := by
  induction t with
  | nil => simp [traceWaits] at h
  | cons e t ih =>
    by_cases hw : ∃ fs, e = Effect.waitFences fs
    · obtain ⟨fs, rfl⟩ := hw
      rw [traceWaits, List.mem_append] at h
      rcases h with h | h
      · exact ⟨[], fs, t, by simp, h⟩
      · obtain ⟨t1, fs1, t2, ht, hf⟩ := ih h
        exact ⟨Effect.waitFences fs :: t1, fs1, t2, by simp [ht], hf⟩
    · have he : traceWaits (e :: t) = traceWaits t := by
        cases e <;> first
          | rfl
          | exact absurd ⟨_, rfl⟩ hw
      obtain ⟨t1, fs1, t2, ht, hf⟩ := ih (he ▸ h)
      exact ⟨e :: t1, fs1, t2, by simp [ht], hf⟩

/-! ## Render target and context state -/

/-- Per-render-target resources read and written by context.cpp.
Command buffers are per-in-flight-frame lists of handles; fences are a
single growable list ring-indexed by fence_idx. -/
structure VKRenderTarget where
  width : Nat := 0
  height : Nat := 0
  multisample_mode : Bool := false
  cmd_buffers : List (List Nat) := []
  pre_cmd_buffers : List (List Nat) := []
  fences : List Nat := []
  fence_idx : Nat := 0
  cmd_buffer_idx : Nat := 0
  last_used_frame : Nat := 0
deriving DecidableEq, Repr, Inhabited

/-- The backend feature flags context.cpp consults. -/
structure FeatureState where
  support_memory_mapping : Bool := false
  use_mask_bit : Bool := false
deriving DecidableEq, Repr, Inhabited

/-- The fields of the GXM record state (context.record) that context.cpp
reads or writes. -/
structure GxmRecordState where
  color_surface : SceGxmColorSurface := default
  depth_stencil_surface : SceGxmDepthStencilSurface := default
  color_base_format : Nat := 0
  is_gamma_corrected : Bool := false
  is_maskupdate : Bool := false
  two_sided : Bool := false
deriving DecidableEq, Repr, Inhabited

/-- The rendering context state touched by context.cpp. The frames field
holds, per in-flight frame slot, the list of fences rendered this frame
(frame().rendered_fences); next_id is the model of the device allocator,
handing out fresh handle identifiers. -/
structure VKContext where
  is_recording : Bool := false
  in_renderpass : Bool := false
  render_target : Option VKRenderTarget := none
  current_render_target : Option VKRenderTarget := none
  frame_timestamp : Nat := 0
  current_frame_idx : Nat := 0
  scene_timestamp : Nat := 0
  record : GxmRecordState := default
  render_cmd : Nat := 0
  prerender_cmd : Nat := 0
  current_render_pass : Nat := 0
  current_framebuffer : Nat := 0
  current_color_attachment : Nat := 0
  current_ds_attachment : Nat := 0
  current_framebuffer_height : Nat := 0
  last_vert_texture_count : Nat := 0
  last_frag_texture_count : Nat := 0
  vertex_textures : List Nat := List.replicate 16 0
  fragment_textures : List Nat := List.replicate 16 0
  refresh_pipeline : Bool := false
  current_pipeline : Nat := 0
  rendertarget_set : Nat := 0
  is_in_query : Bool := false
  current_query_idx : Nat := 0
  visibility_max_used_idx : Int := -1
  frames : List (List Nat) := []
  request_queue : List Request := []
  features : FeatureState := default
  disable_surface_sync : Bool := false
  next_id : Nat := 1
deriving DecidableEq, Repr, Inhabited

/-- Stand-in for the SceGxmDepthStencilControl stencil_bits mask from
the GXM headers (stencil values are 8 bits; the exact constant is not
used by any claim, only passed through to the clear value). -/
def stencil_bits : Nat := 255

/-- VKContext::start_recording. Returns the new context state and the
trace of externally visible actions, in order. -/
def VKContext.start_recording (ctx : VKContext) : VKContext × List Effect :=
  if ctx.is_recording then
    (ctx, [Effect.logError "Attempt to start recording while already recording"])
  else
    match ctx.render_target with
    | none => (ctx, [Effect.logError "Recording started without a set command buffer"])
    | some rt0 =>
      let rt1 := if rt0.last_used_frame ≠ ctx.frame_timestamp then
          { rt0 with cmd_buffer_idx := 0, last_used_frame := ctx.frame_timestamp }
        else rt0
      let curBufs := rt1.cmd_buffers.getD ctx.current_frame_idx []
      let growth : VKRenderTarget × List Effect × Nat :=
        if rt1.cmd_buffer_idx = curBufs.length then
          let cmd_id := ctx.next_id
          let pre_id := ctx.next_id + 1
          let fence_id := ctx.next_id + 2
          ({ rt1 with
              cmd_buffers := rt1.cmd_buffers.set ctx.current_frame_idx (curBufs ++ [cmd_id]),
              pre_cmd_buffers := rt1.pre_cmd_buffers.set ctx.current_frame_idx
                ((rt1.pre_cmd_buffers.getD ctx.current_frame_idx []) ++ [pre_id]),
              fences := rt1.fences.take rt1.fence_idx
                ++ fence_id :: rt1.fences.drop rt1.fence_idx },
           -- the LOG_WARN_IF site; its process-global once-only flag is not modelled
           [Effect.logWarn "Render Target is using more scenes per frame than what was planned!",
            Effect.allocateCommandBuffer cmd_id,
            Effect.allocateCommandBuffer pre_id,
            Effect.createFence fence_id],
           ctx.next_id + 3)
        else (rt1, [], ctx.next_id)
      let rt2 := growth.1
      let rcmd := (rt2.cmd_buffers.getD ctx.current_frame_idx []).getD rt2.cmd_buffer_idx 0
      let pcmd := (rt2.pre_cmd_buffers.getD ctx.current_frame_idx []).getD rt2.cmd_buffer_idx 0
      let rt3 := { rt2 with cmd_buffer_idx := rt2.cmd_buffer_idx + 1 }
      ({ ctx with
          render_target := some rt3,
          render_cmd := rcmd,
          prerender_cmd := pcmd,
          is_recording := true,
          next_id := growth.2.2 },
       growth.2.1 ++
         [Effect.beginCmdBuffer rcmd, Effect.beginCmdBuffer pcmd,
          Effect.setViewport, Effect.setScissor, Effect.syncDepthBias,
          Effect.syncPointLineWidth, Effect.syncStencilFunc false] ++
         (if ctx.record.two_sided then [Effect.syncStencilFunc true] else []))

/-- VKContext::start_render_pass. -/
def VKContext.start_render_pass (ctx : VKContext) : VKContext × List Effect :=
  if ctx.in_renderpass then
    (ctx, [Effect.logError "Starting render pass while already in render pass"])
  else
    let step := if ctx.is_recording then (ctx, ([] : List Effect)) else ctx.start_recording
    let c1 := step.1
    let rt := c1.render_target.getD default
    let set_id := c1.next_id
    let c2 := { c1 with
      last_vert_texture_count := 4294967295,
      last_frag_texture_count := 4294967295,
      vertex_textures := List.replicate 16 0,
      fragment_textures := List.replicate 16 0,
      rendertarget_set := set_id,
      next_id := c1.next_id + 1,
      refresh_pipeline := true,
      current_pipeline := 0,
      in_renderpass := true }
    (c2, step.2 ++
      [Effect.beginRenderPass c1.current_render_pass c1.current_framebuffer
         rt.width rt.height
         c1.record.depth_stencil_surface.backgroundDepth
         (c1.record.depth_stencil_surface.control_content &&& stencil_bits),
       Effect.allocateDescriptorSet set_id,
       Effect.updateDescriptorSets (if c1.features.use_mask_bit then 2 else 1)])

/-- VKContext::stop_render_pass. -/
def VKContext.stop_render_pass (ctx : VKContext) : VKContext × List Effect :=
  if !ctx.in_renderpass then
    (ctx, [Effect.logError "Stopping render pass while not in render pass"])
  else
    ({ ctx with in_renderpass := false }, [Effect.endRenderPass])

/-- VKContext::stop_recording. The surface_sync argument is the oracle
for what the external surface_cache.perform_surface_sync() call returns
when it is made (nullptr is none). -/
def VKContext.stop_recording (ctx : VKContext) (notif1 notif2 : SceGxmNotification)
    (surface_sync : Option Nat) : VKContext × List Effect :=
  if !ctx.is_recording then
    (ctx, [Effect.logError "Stopping recording while not recording"])
  else
    let queryStep : VKContext × List Effect :=
      if ctx.is_in_query then
        ({ ctx with is_in_query := false }, [Effect.endQuery ctx.current_query_idx])
      else (ctx, [])
    let c1 := queryStep.1
    let rpStep : VKContext × List Effect :=
      if c1.in_renderpass then c1.stop_render_pass else (c1, [])
    let c2 := rpStep.1
    let visStep : VKContext × List Effect :=
      if c2.visibility_max_used_idx ≠ -1 then
        ({ c2 with visibility_max_used_idx := -1 },
         [Effect.copyQueryPoolResults (c2.visibility_max_used_idx + 1).toNat])
      else (c2, [])
    let c3 := visStep.1
    let surfStep : Option Nat × List Effect :=
      if c3.features.support_memory_mapping && !c3.disable_surface_sync then
        (surface_sync, [Effect.performSurfaceSync])
      else (none, [])
    let surface_info := surfStep.1
    let rt := c3.render_target.getD default
    let fence := rt.fences.getD rt.fence_idx 0
    let fence_idx2 := if rt.fence_idx + 1 = rt.fences.length then 0 else rt.fence_idx + 1
    let rt2 := { rt with fence_idx := fence_idx2 }
    let frames2 := c3.frames.set c3.current_frame_idx
        ((c3.frames.getD c3.current_frame_idx []) ++ [fence])
    let pushes : List Request :=
      if c3.features.support_memory_mapping then
        Request.notificationReq notif1 notif2 fence ::
          (match surface_info with
           | some info => [Request.postSurfaceSyncReq info]
           | none => [])
      else []
    let rt3 := if rt2.multisample_mode && !c3.record.color_surface.downscale then
        { rt2 with width := rt2.width / 2, height := rt2.height / 2 }
      else rt2
    ({ c3 with
        render_target := some rt3,
        frames := frames2,
        request_queue := c3.request_queue ++ pushes,
        render_cmd := 0,
        prerender_cmd := 0,
        is_recording := false },
     queryStep.2 ++ rpStep.2 ++ visStep.2 ++ surfStep.2 ++
       [Effect.endCmdBuffer c3.prerender_cmd, Effect.endCmdBuffer c3.render_cmd,
        Effect.submit [c3.prerender_cmd, c3.render_cmd] fence] ++
       pushes.map Effect.pushRequest)

/-- The result bundle of the external framebuffer-cache lookup
(retrieve_framebuffer_handle output parameters). -/
structure FramebufferResult where
  framebuffer : Nat := 0
  color_attachment : Nat := 0
  ds_attachment : Nat := 0
  height : Nat := 0
deriving DecidableEq, Repr, Inhabited

/-- Oracles for the external collaborators of set_context: format
translation and the render-pass and framebuffer caches. -/
structure Ext where
  get_base_format : Nat → Nat
  translate_format : Nat → VkFormat
  retrieve_render_pass : VkFormat → Nat → Nat
  retrieve_framebuffer : Option SceGxmColorSurface → Option SceGxmDepthStencilSurface →
    Nat → Nat → Nat → FramebufferResult

/-- The state of set_context just before it starts recording: resolved
color surface pointer (none = null), resolved depth-stencil pointer,
chosen Vulkan format, and the context with the render target bound (and
possibly its extent doubled for multi-sample emulation). -/
structure BindPrep where
  color_surface_fin : Option SceGxmColorSurface
  ds_fin : Option SceGxmDepthStencilSurface
  vk_format : VkFormat
  ctx : VKContext

/-- The first half of set_context: bind the render target, bump the
scene timestamp, derive format and gamma from the color surface (with
the null-backing-address fallback), and apply the multi-sample
width/height doubling. -/
def set_context_prep (ctx0 : VKContext) (rt_in : Option VKRenderTarget) (ext : Ext) :
    BindPrep :=
  let ctxa : VKContext := match rt_in with
    | some rt => { ctx0 with render_target := some rt }
    | none => { ctx0 with render_target := ctx0.current_render_target }
  let ctx : VKContext := { ctxa with scene_timestamp := ctxa.scene_timestamp + 1 }
  let color_base_format := ext.get_base_format ctx.record.color_surface.colorFormat
  let vk_format0 := ext.translate_format color_base_format
  let vk_format1 := if ctx.record.color_surface.gamma ≠ 0
      ∧ vk_format0 = VkFormat.r8g8b8a8Unorm
    then VkFormat.r8g8b8a8Srgb else vk_format0
  let ctx2 : VKContext := { ctx with record := { ctx.record with
      color_base_format := color_base_format,
      is_gamma_corrected := ctx.record.color_surface.gamma != 0 } }
  let nullStep : Option SceGxmColorSurface × VkFormat × VKContext :=
    if ctx2.record.color_surface.data_address = 0 then
      (none, VkFormat.r8g8b8a8Unorm,
       { ctx2 with record := { ctx2.record with
          color_surface := { ctx2.record.color_surface with downscale := false },
          is_gamma_corrected := false,
          is_maskupdate := false,
          color_base_format := SCE_GXM_COLOR_BASE_FORMAT_U8U8U8U8 } })
    else (some ctx2.record.color_surface, vk_format1, ctx2)
  let c3 := nullStep.2.2
  let rtv := c3.render_target.getD default
  let rtv2 : VKRenderTarget :=
    if rtv.multisample_mode && !c3.record.color_surface.downscale then
      { rtv with width := rtv.width * 2, height := rtv.height * 2 }
    else rtv
  let ds_fin := if c3.record.depth_stencil_surface.depthData_address = 0
      ∧ c3.record.depth_stencil_surface.stencilData_address = 0
    then none else some c3.record.depth_stencil_surface
  { color_surface_fin := nullStep.1,
    ds_fin := ds_fin,
    vk_format := nullStep.2.1,
    ctx := { c3 with render_target := some rtv2 } }

/-- The second half of set_context: retrieve render pass and
framebuffer, update the cached handles, and return the trace of the
retrieval calls. -/
def set_context_lookup (c5 : VKContext) (prep : BindPrep) (ext : Ext) :
    VKContext × List Effect :=
  let rp := ext.retrieve_render_pass prep.vk_format
      c5.record.depth_stencil_surface.zlsControl
  let rtw := c5.render_target.getD default
  let fb := ext.retrieve_framebuffer prep.color_surface_fin prep.ds_fin rp
      rtw.width rtw.height
  ({ c5 with
      current_render_pass := rp,
      current_framebuffer := fb.framebuffer,
      current_color_attachment := fb.color_attachment,
      current_ds_attachment := fb.ds_attachment,
      current_framebuffer_height := fb.height },
   [Effect.retrieveRenderPass prep.vk_format c5.record.depth_stencil_surface.zlsControl,
    Effect.retrieveFramebuffer prep.color_surface_fin prep.ds_fin rp rtw.width rtw.height])

/-- set_context (the context binder). rt_in models the rt pointer
argument (none falls back to the context's current render target). -/
def set_context (ctx0 : VKContext) (rt_in : Option VKRenderTarget) (ext : Ext) :
    VKContext × List Effect :=
  let prep := set_context_prep ctx0 rt_in ext
  let recStep := prep.ctx.start_recording
  let lookStep := set_context_lookup recStep.1 prep ext
  let c7 := lookStep.1
  let maskEffects := if c7.features.use_mask_bit then [Effect.syncMask] else []
  let rpStep := c7.start_render_pass
  (rpStep.1,
   Effect.setRenderTarget :: recStep.2 ++ lookStep.2 ++ maskEffects ++ rpStep.2)

/-! ## Sample data for witnesses -/

/-- A concrete render target used by witness instantiations. -/
def sampleRT : VKRenderTarget :=
  { width := 100, height := 50, multisample_mode := true,
    cmd_buffers := [[10], [11]], pre_cmd_buffers := [[20], [21]],
    fences := [30, 31], fence_idx := 0,
    cmd_buffer_idx := 0, last_used_frame := 0 }

/-- A concrete context used by witness instantiations. -/
def sampleCtx : VKContext :=
  { render_target := some sampleRT, frame_timestamp := 5,
    current_frame_idx := 1, frames := [[], []], next_id := 100,
    features := { support_memory_mapping := true, use_mask_bit := false } }

/-- Concrete external-collaborator oracles used by witness
instantiations. -/
def sampleExt : Ext :=
  { get_base_format := fun n => n,
    translate_format := fun _ => VkFormat.r8g8b8a8Unorm,
    retrieve_render_pass := fun _ _ => 77,
    retrieve_framebuffer := fun _ _ _ _ _ => { framebuffer := 88 } }

/-! ## Claims -/

/-- C1: a successful start_recording sets the target's cmd_buffer_idx to
one more than its value after the new-frame reset (the reset to zero
happens exactly when last_used_frame differs from the context's frame
timestamp), and leaves last_used_frame equal to the current frame
timestamp. -/
theorem start_recording_cmd_buffer_idx (ctx : VKContext) (rt : VKRenderTarget)
    (hrec : ctx.is_recording = false) (hrt : ctx.render_target = some rt) :
    ∃ rt', (ctx.start_recording).1.render_target = some rt'
      ∧ rt'.cmd_buffer_idx
          = (if rt.last_used_frame ≠ ctx.frame_timestamp then 0 else rt.cmd_buffer_idx) + 1
      ∧ rt'.last_used_frame = ctx.frame_timestamp := by
  simp only [VKContext.start_recording, hrec, hrt, Bool.false_eq_true, if_false]
  by_cases hf : rt.last_used_frame = ctx.frame_timestamp <;>
    simp [hf] <;> split <;> simp [hf]

theorem start_recording_cmd_buffer_idx_witness :
    sampleCtx.is_recording = false ∧ sampleCtx.render_target = some sampleRT
      ∧ (∃ rt', (sampleCtx.start_recording).1.render_target = some rt'
          ∧ rt'.cmd_buffer_idx = (if sampleRT.last_used_frame ≠ sampleCtx.frame_timestamp
              then 0 else sampleRT.cmd_buffer_idx) + 1
          ∧ rt'.last_used_frame = sampleCtx.frame_timestamp) :=
  ⟨rfl, rfl, start_recording_cmd_buffer_idx sampleCtx sampleRT rfl rfl⟩

lemma reqFences_append (xs ys : List Request) :
    reqFences (xs ++ ys) = reqFences xs ++ reqFences ys := by
  induction xs with
  | nil => rfl
  | cons r rs ih => simp [reqFences, ih]

/-- C2: the dispatcher handles requests in the order the queue delivers
them (push order); for a PostSurfaceSyncRequest that comes after a
NotificationRequest, the trace shows a fence wait that includes the
NotificationRequest's fence strictly before the finalize-sync side
effect of the PostSurfaceSyncRequest. -/
theorem post_surface_sync_after_earlier_fences
    (l1 l2 l3 : List Request) (n1 n2 : SceGxmNotification) (f hinfo : Nat) :
    ∃ t1 fs t2 t3,
      (dispatch_loop [] ((l1 ++ Request.notificationReq n1 n2 f :: l2)
          ++ Request.postSurfaceSyncReq hinfo :: l3)).1
        = t1 ++ Effect.waitFences fs :: t2 ++ Effect.performPostSurfaceSync hinfo :: t3
      ∧ f ∈ fs := by
  have hsplit := dispatch_loop_append (l1 ++ Request.notificationReq n1 n2 f :: l2)
    (Request.postSurfaceSyncReq hinfo :: l3) []
  set A := l1 ++ Request.notificationReq n1 n2 f :: l2 with hA
  set pA := (dispatch_loop [] A).2 with hpA
  have hmem : f ∈ traceWaits (dispatch_loop [] A).1 ++ pA := by
    rw [hpA, dispatch_loop_account]
    simp [hA, reqFences_append, reqFences, reqFence]
  have htail : dispatch_loop pA (Request.postSurfaceSyncReq hinfo :: l3)
      = ((wait_for_fences pA).1 ++ Effect.performPostSurfaceSync hinfo
           :: (dispatch_loop (wait_for_fences pA).2 l3).1,
         (dispatch_loop (wait_for_fences pA).2 l3).2) := by
    simp [dispatch_loop, dispatch_one]
  rw [List.mem_append] at hmem
  rcases hmem with hm | hm
  · obtain ⟨t1, fs, t2, hTA, hf⟩ := mem_traceWaits f _ hm
    refine ⟨t1, fs, t2 ++ (wait_for_fences pA).1,
      (dispatch_loop (wait_for_fences pA).2 l3).1, ?_, hf⟩
    rw [hsplit, htail, hTA]
    simp [List.append_assoc]
  · have hne : pA ≠ [] := by
      intro h0
      rw [h0] at hm
      simp at hm
    have hne2 : pA.isEmpty = false := by
      cases h0 : pA.isEmpty
      · rfl
      · exact absurd (List.isEmpty_iff.mp h0) hne
    refine ⟨(dispatch_loop [] A).1, pA, [],
      (dispatch_loop (wait_for_fences pA).2 l3).1, ?_, hm⟩
    rw [hsplit, htail]
    simp [wait_for_fences, hne2]

/-- C3: when the dispatcher handles a NotificationRequest with at least
one non-null notification address, it first waits on all accumulated
fences including the request's own fence, then performs the guest writes
for the non-null addresses, then notifies all waiters, leaving the batch
empty; with both addresses null it performs no write or wait and only
appends the fence to the pending batch. -/
theorem notification_write_after_wait (pend : List Nat)
    (n1 n2 : SceGxmNotification) (f : Nat) :
    (n1.address ≠ 0 ∨ n2.address ≠ 0 →
      dispatch_one pend (Request.notificationReq n1 n2 f)
        = (Effect.waitFences (pend ++ [f])
            :: ((if n1.address ≠ 0 then [Effect.writeGuest n1.address n1.value] else [])
              ++ (if n2.address ≠ 0 then [Effect.writeGuest n2.address n2.value] else [])
              ++ [Effect.notifyAll]), [])
        ∧ f ∈ pend ++ [f])
  ∧ (n1.address = 0 → n2.address = 0 →
      dispatch_one pend (Request.notificationReq n1 n2 f) = ([], pend ++ [f])) := by
  constructor
  · intro h
    refine ⟨?_, by simp⟩
    have hne : (pend ++ [f]).isEmpty = false := by simp
    simp [dispatch_one, if_pos h, wait_for_fences, hne]
  · intro h1 h2
    simp [dispatch_one, h1, h2]

theorem notification_write_after_wait_witness :
    ((dispatch_one [1] (Request.notificationReq ⟨4, 7⟩ ⟨0, 0⟩ 9)
        = (Effect.waitFences [1, 9] :: [Effect.writeGuest 4 7, Effect.notifyAll], []))
      ∧ (9 : Nat) ∈ ([1] ++ [9] : List Nat))
    ∧ dispatch_one [2] (Request.notificationReq ⟨0, 5⟩ ⟨0, 6⟩ 9) = ([], [2, 9]) := by
  have h1 := (notification_write_after_wait [1] ⟨4, 7⟩ ⟨0, 0⟩ 9).1 (by decide)
  have h2 := (notification_write_after_wait [2] ⟨0, 5⟩ ⟨0, 6⟩ 9).2 rfl rfl
  refine ⟨⟨?_, h1.2⟩, ?_⟩
  · rw [h1.1]
    decide
  · rw [h2]
    decide

/-- C6: each out-of-order protocol call (start_recording while already
recording or without a bound render target, start_render_pass while in a
render pass, stop_render_pass while not in one, stop_recording while not
recording) reports an error and leaves the state unchanged: the result
is exactly the unchanged context with a single logError effect. -/
theorem out_of_order_calls_noop (ctx : VKContext)
    (n1 n2 : SceGxmNotification) (sync : Option Nat) :
    (ctx.is_recording = true →
      ctx.start_recording
        = (ctx, [Effect.logError "Attempt to start recording while already recording"]))
  ∧ (ctx.is_recording = false → ctx.render_target = none →
      ctx.start_recording
        = (ctx, [Effect.logError "Recording started without a set command buffer"]))
  ∧ (ctx.in_renderpass = true →
      ctx.start_render_pass
        = (ctx, [Effect.logError "Starting render pass while already in render pass"]))
  ∧ (ctx.in_renderpass = false →
      ctx.stop_render_pass
        = (ctx, [Effect.logError "Stopping render pass while not in render pass"]))
  ∧ (ctx.is_recording = false →
      ctx.stop_recording n1 n2 sync
        = (ctx, [Effect.logError "Stopping recording while not recording"])) := by
  refine ⟨fun h => ?_, fun h h2 => ?_, fun h => ?_, fun h => ?_, fun h => ?_⟩
  · simp [VKContext.start_recording, h]
  · simp [VKContext.start_recording, h, h2]
  · simp [VKContext.start_render_pass, h]
  · simp [VKContext.stop_render_pass, h]
  · simp [VKContext.stop_recording, h]

theorem out_of_order_calls_noop_witness :
    (sampleCtx.in_renderpass = false
      ∧ sampleCtx.stop_render_pass
          = (sampleCtx, [Effect.logError "Stopping render pass while not in render pass"]))
  ∧ (sampleCtx.is_recording = false
      ∧ sampleCtx.stop_recording ⟨0, 0⟩ ⟨0, 0⟩ none
          = (sampleCtx, [Effect.logError "Stopping recording while not recording"])) :=
  ⟨⟨rfl, ((out_of_order_calls_noop sampleCtx ⟨0, 0⟩ ⟨0, 0⟩ none).2.2.2.1 rfl)⟩,
   ⟨rfl, ((out_of_order_calls_noop sampleCtx ⟨0, 0⟩ ⟨0, 0⟩ none).2.2.2.2 rfl)⟩⟩

lemma start_recording_preserves (ctx : VKContext) (rt0 : VKRenderTarget)
    (hrt : ctx.render_target = some rt0) :
    ∃ rt1, (ctx.start_recording).1.render_target = some rt1
      ∧ rt1.width = rt0.width ∧ rt1.height = rt0.height
      ∧ rt1.multisample_mode = rt0.multisample_mode
      ∧ (ctx.start_recording).1.record = ctx.record
      ∧ (ctx.start_recording).1.is_recording = true := by
  by_cases h : ctx.is_recording
  · refine ⟨rt0, ?_, rfl, rfl, rfl, ?_, ?_⟩ <;>
      simp [VKContext.start_recording, h, hrt]
  · rw [Bool.not_eq_true] at h
    simp only [VKContext.start_recording, h, hrt, Bool.false_eq_true, if_false]
    by_cases hf : rt0.last_used_frame = ctx.frame_timestamp <;>
      simp [hf] <;> split <;> simp [hf]

lemma start_render_pass_preserves (ctx : VKContext) (h : ctx.is_recording = true) :
    (ctx.start_render_pass).1.render_target = ctx.render_target
    ∧ (ctx.start_render_pass).1.record = ctx.record
    ∧ (ctx.start_render_pass).1.is_recording = true := by
  by_cases hrp : ctx.in_renderpass <;>
    simp [VKContext.start_render_pass, hrp, h]

lemma set_context_lookup_preserves (c5 : VKContext) (prep : BindPrep) (ext : Ext) :
    (set_context_lookup c5 prep ext).1.render_target = c5.render_target
    ∧ (set_context_lookup c5 prep ext).1.record = c5.record
    ∧ (set_context_lookup c5 prep ext).1.is_recording = c5.is_recording := by
  refine ⟨?_, ?_, ?_⟩ <;> simp [set_context_lookup]

lemma set_context_prep_target (ctx : VKContext) (rt : VKRenderTarget) (ext : Ext) :
    (set_context_prep ctx (some rt) ext).ctx.render_target
      = some (if rt.multisample_mode
            && !(set_context_prep ctx (some rt) ext).ctx.record.color_surface.downscale
          then { rt with width := rt.width * 2, height := rt.height * 2 }
          else rt) := by
  by_cases h : ctx.record.color_surface.data_address = 0 <;>
    simp [set_context_prep, h]

lemma set_context_state (ctx : VKContext) (rt : VKRenderTarget) (ext : Ext) :
    ∃ rt1, (set_context ctx (some rt) ext).1.render_target = some rt1
      ∧ rt1.multisample_mode = rt.multisample_mode
      ∧ rt1.width = (if rt.multisample_mode
            && !(set_context_prep ctx (some rt) ext).ctx.record.color_surface.downscale
          then rt.width * 2 else rt.width)
      ∧ rt1.height = (if rt.multisample_mode
            && !(set_context_prep ctx (some rt) ext).ctx.record.color_surface.downscale
          then rt.height * 2 else rt.height)
      ∧ (set_context ctx (some rt) ext).1.is_recording = true
      ∧ (set_context ctx (some rt) ext).1.record.color_surface.downscale
          = (set_context_prep ctx (some rt) ext).ctx.record.color_surface.downscale := by
  obtain ⟨rt1, h1, hw, hh, hm, hrecd, hflag⟩ :=
    start_recording_preserves (set_context_prep ctx (some rt) ext).ctx _
      (set_context_prep_target ctx rt ext)
  obtain ⟨hl1, hl2, hl3⟩ := set_context_lookup_preserves
    ((set_context_prep ctx (some rt) ext).ctx.start_recording).1
    (set_context_prep ctx (some rt) ext) ext
  have hflag2 : (set_context_lookup
      ((set_context_prep ctx (some rt) ext).ctx.start_recording).1
      (set_context_prep ctx (some rt) ext) ext).1.is_recording = true := by
    rw [hl3, hflag]
  obtain ⟨hp1, hp2, hp3⟩ := start_render_pass_preserves _ hflag2
  refine ⟨rt1, ?_, ?_, ?_, ?_, ?_, ?_⟩
  · show (set_context ctx (some rt) ext).1.render_target = some rt1
    simp only [set_context]
    rw [hp1, hl1, h1]
  · split at hm <;> simp_all
  · rw [hw]
    split <;> simp_all
  · rw [hh]
    split <;> simp_all
  · simp only [set_context]
    rw [hp3]
  · simp only [set_context]
    rw [hp2, hl2, hrecd]

lemma stop_recording_msaa_revert (ctx : VKContext) (rt0 : VKRenderTarget)
    (n1 n2 : SceGxmNotification) (sync : Option Nat)
    (hrec : ctx.is_recording = true) (hrt : ctx.render_target = some rt0) :
    ∃ rt', (ctx.stop_recording n1 n2 sync).1.render_target = some rt'
      ∧ rt'.width = (if rt0.multisample_mode && !ctx.record.color_surface.downscale
          then rt0.width / 2 else rt0.width)
      ∧ rt'.height = (if rt0.multisample_mode && !ctx.record.color_surface.downscale
          then rt0.height / 2 else rt0.height) := by
  by_cases h1 : ctx.is_in_query <;> by_cases h2 : ctx.in_renderpass <;>
    simp [VKContext.stop_recording, VKContext.stop_render_pass, h1, h2, hrec, hrt] <;>
    split <;> simp [hrt] <;> split <;> simp

/-- C4: the multi-sample dimension doubling applied by set_context is
exactly reverted by the paired stop_recording: the render target's width
and height after stop_recording equal their values before set_context,
whatever the multisample mode and downscale flag. -/
theorem msaa_doubling_reversible (ctx : VKContext) (rt : VKRenderTarget) (ext : Ext)
    (n1 n2 : SceGxmNotification) (sync : Option Nat) :
    ∃ rt', ((set_context ctx (some rt) ext).1.stop_recording n1 n2 sync).1.render_target
        = some rt'
      ∧ rt'.width = rt.width ∧ rt'.height = rt.height := by
  obtain ⟨rt1, hrt1, hm, hw, hh, hrec, hdown⟩ := set_context_state ctx rt ext
  obtain ⟨rt', hrt', hw', hh'⟩ :=
    stop_recording_msaa_revert _ rt1 n1 n2 sync hrec hrt1
  refine ⟨rt', hrt', ?_, ?_⟩
  · rw [hw', hm, hdown, hw]
    split <;> simp [Nat.mul_div_cancel]
  · rw [hh', hm, hdown, hh]
    split <;> simp [Nat.mul_div_cancel]

lemma getD_append_cons {α : Type} (l1 l2 : List α) (a d : α) :
    (l1 ++ a :: l2).getD l1.length d = a := by
  induction l1 with
  | nil => rfl
  | cons x xs ih => simpa using ih

lemma getD_insert_at {α : Type} (l : List α) (i : Nat) (a d : α)
    (h : i ≤ l.length) : (l.take i ++ a :: l.drop i).getD i d = a := by
  have hc := getD_append_cons (l.take i) (l.drop i) a d
  rwa [List.length_take, Nat.min_eq_left h] at hc

lemma getD_set_self {α : Type} (l : List α) (i : Nat) (a d : α)
    (h : i < l.length) : (l.set i a).getD i d = a := by
  induction l generalizing i with
  | nil => simp at h
  | cons x xs ih =>
    cases i with
    | zero => rfl
    | succ n => simpa using ih n (by simpa using h)

/-- The render target produced by start_recording on its growth path:
one command buffer and one pre-render buffer appended to the current
frame slot, the new fence inserted at fence_idx, and the cursor
advanced. -/
lemma start_recording_grow_run (ctx : VKContext) (rt : VKRenderTarget)
    (hrec : ctx.is_recording = false) (hrt : ctx.render_target = some rt)
    (hfull : (if rt.last_used_frame ≠ ctx.frame_timestamp then 0 else rt.cmd_buffer_idx)
        = (rt.cmd_buffers.getD ctx.current_frame_idx []).length) :
    (ctx.start_recording).1.render_target = some
      { rt with
          cmd_buffers := rt.cmd_buffers.set ctx.current_frame_idx
            ((rt.cmd_buffers.getD ctx.current_frame_idx []) ++ [ctx.next_id]),
          pre_cmd_buffers := rt.pre_cmd_buffers.set ctx.current_frame_idx
            ((rt.pre_cmd_buffers.getD ctx.current_frame_idx []) ++ [ctx.next_id + 1]),
          fences := rt.fences.take rt.fence_idx
            ++ (ctx.next_id + 2) :: rt.fences.drop rt.fence_idx,
          cmd_buffer_idx := (if rt.last_used_frame ≠ ctx.frame_timestamp
            then 0 else rt.cmd_buffer_idx) + 1,
          last_used_frame := ctx.frame_timestamp } := by
  by_cases hf : rt.last_used_frame = ctx.frame_timestamp <;>
    simp_all [VKContext.start_recording]

/-- The render target produced by start_recording off the growth path:
only the cursor and the frame stamp change. -/
lemma start_recording_nogrow_run (ctx : VKContext) (rt : VKRenderTarget)
    (hrec : ctx.is_recording = false) (hrt : ctx.render_target = some rt)
    (hnotfull : (if rt.last_used_frame ≠ ctx.frame_timestamp then 0 else rt.cmd_buffer_idx)
        ≠ (rt.cmd_buffers.getD ctx.current_frame_idx []).length) :
    (ctx.start_recording).1.render_target = some
      { rt with
          cmd_buffer_idx := (if rt.last_used_frame ≠ ctx.frame_timestamp
            then 0 else rt.cmd_buffer_idx) + 1,
          last_used_frame := ctx.frame_timestamp } := by
  by_cases hf : rt.last_used_frame = ctx.frame_timestamp <;>
    simp_all [VKContext.start_recording]

/-- The render target produced by a successful stop_recording: the
fence cursor ring-advances and, when the multi-sample doubling was in
force, the extent is halved. -/
lemma stop_recording_target_run (ctx : VKContext) (rt : VKRenderTarget)
    (n1 n2 : SceGxmNotification) (sync : Option Nat)
    (hrec : ctx.is_recording = true) (hrt : ctx.render_target = some rt) :
    (ctx.stop_recording n1 n2 sync).1.render_target = some
      (if rt.multisample_mode && !ctx.record.color_surface.downscale then
        { rt with
            fence_idx := if rt.fence_idx + 1 = rt.fences.length
              then 0 else rt.fence_idx + 1,
            width := rt.width / 2, height := rt.height / 2 }
       else
        { rt with
            fence_idx := if rt.fence_idx + 1 = rt.fences.length
              then 0 else rt.fence_idx + 1 }) := by
  by_cases h1 : ctx.is_in_query <;> by_cases h2 : ctx.in_renderpass <;>
    simp [VKContext.stop_recording, VKContext.stop_render_pass, h1, h2, hrec, hrt] <;>
    split <;> simp [hrt]

/-- C5: when start_recording finds the scene budget exhausted
(cmd_buffer_idx, after the new-frame reset, equals the size of the
current frame's command-buffer list), it grows the command-buffer,
pre-render-buffer and fence pools by exactly one slot each, the new
fence is inserted at position fence_idx (which is left unchanged, so the
fence stop_recording allocates next is the newly created one), and the
new fence is distinct from every fence already in the pool. -/
theorem start_recording_growth (ctx : VKContext) (rt : VKRenderTarget)
    (hrec : ctx.is_recording = false) (hrt : ctx.render_target = some rt)
    (hfull : (if rt.last_used_frame ≠ ctx.frame_timestamp then 0 else rt.cmd_buffer_idx)
        = (rt.cmd_buffers.getD ctx.current_frame_idx []).length)
    (hframe : ctx.current_frame_idx < rt.cmd_buffers.length)
    (hframe2 : ctx.current_frame_idx < rt.pre_cmd_buffers.length)
    (hidx : rt.fence_idx ≤ rt.fences.length)
    (hfresh : ∀ x ∈ rt.fences, x < ctx.next_id) :
    ∃ rt', (ctx.start_recording).1.render_target = some rt'
      ∧ (rt'.cmd_buffers.getD ctx.current_frame_idx []).length
          = (rt.cmd_buffers.getD ctx.current_frame_idx []).length + 1
      ∧ (rt'.pre_cmd_buffers.getD ctx.current_frame_idx []).length
          = (rt.pre_cmd_buffers.getD ctx.current_frame_idx []).length + 1
      ∧ rt'.fences.length = rt.fences.length + 1
      ∧ rt'.fence_idx = rt.fence_idx
      ∧ rt'.fences.getD rt'.fence_idx 0 = ctx.next_id + 2
      ∧ ctx.next_id + 2 ∉ rt.fences := by
  have hfr : ctx.next_id + 2 ∉ rt.fences := fun hx => by
    have := hfresh _ hx
    omega
  rw [start_recording_grow_run ctx rt hrec hrt hfull]
  refine ⟨_, rfl, ?_, ?_, ?_, rfl, ?_, hfr⟩
  · show ((rt.cmd_buffers.set ctx.current_frame_idx
        ((rt.cmd_buffers.getD ctx.current_frame_idx []) ++ [ctx.next_id])).getD
          ctx.current_frame_idx []).length
      = (rt.cmd_buffers.getD ctx.current_frame_idx []).length + 1
    rw [getD_set_self _ _ _ _ hframe]
    simp
  · show ((rt.pre_cmd_buffers.set ctx.current_frame_idx
        ((rt.pre_cmd_buffers.getD ctx.current_frame_idx []) ++ [ctx.next_id + 1])).getD
          ctx.current_frame_idx []).length
      = (rt.pre_cmd_buffers.getD ctx.current_frame_idx []).length + 1
    rw [getD_set_self _ _ _ _ hframe2]
    simp
  · show (rt.fences.take rt.fence_idx
        ++ (ctx.next_id + 2) :: rt.fences.drop rt.fence_idx).length
      = rt.fences.length + 1
    simp [List.length_take, List.length_drop]
    omega
  · show (rt.fences.take rt.fence_idx
        ++ (ctx.next_id + 2) :: rt.fences.drop rt.fence_idx).getD rt.fence_idx 0
      = ctx.next_id + 2
    exact getD_insert_at _ _ _ _ hidx

/-- A render target one scene short of its planned budget in the
current frame, used to witness the growth path. -/
def sampleRTFull : VKRenderTarget :=
  { width := 100, height := 50, multisample_mode := false,
    cmd_buffers := [[10], [11]], pre_cmd_buffers := [[20], [21]],
    fences := [30, 31], fence_idx := 1,
    cmd_buffer_idx := 1, last_used_frame := 5 }

/-- A context bound to sampleRTFull, in the same frame. -/
def sampleCtxFull : VKContext :=
  { render_target := some sampleRTFull, frame_timestamp := 5,
    current_frame_idx := 1, frames := [[], []], next_id := 100,
    features := { support_memory_mapping := true, use_mask_bit := false } }

theorem start_recording_growth_witness :
    ∃ rt', (sampleCtxFull.start_recording).1.render_target = some rt'
      ∧ (rt'.cmd_buffers.getD sampleCtxFull.current_frame_idx []).length
          = (sampleRTFull.cmd_buffers.getD sampleCtxFull.current_frame_idx []).length + 1
      ∧ (rt'.pre_cmd_buffers.getD sampleCtxFull.current_frame_idx []).length
          = (sampleRTFull.pre_cmd_buffers.getD sampleCtxFull.current_frame_idx []).length + 1
      ∧ rt'.fences.length = sampleRTFull.fences.length + 1
      ∧ rt'.fence_idx = sampleRTFull.fence_idx
      ∧ rt'.fences.getD rt'.fence_idx 0 = sampleCtxFull.next_id + 2
      ∧ sampleCtxFull.next_id + 2 ∉ sampleRTFull.fences :=
  start_recording_growth sampleCtxFull sampleRTFull rfl rfl (by decide) (by decide)
    (by decide) (by decide) (by decide)

/-- C10: with a non-empty fence pool and a valid fence_idx, fence_idx
stays a valid index into the fence pool across start_recording (whose
growth path inserts at fence_idx, growing the pool) and across
stop_recording (whose ring advance wraps to zero at the pool size). -/
theorem fence_idx_stays_valid (ctx : VKContext) (rt : VKRenderTarget)
    (n1 n2 : SceGxmNotification) (sync : Option Nat)
    (hrt : ctx.render_target = some rt)
    (hne : rt.fences ≠ []) (hvalid : rt.fence_idx < rt.fences.length) :
    (∀ rt', (ctx.start_recording).1.render_target = some rt'
        → rt'.fence_idx < rt'.fences.length)
    ∧ (∀ rt', (ctx.stop_recording n1 n2 sync).1.render_target = some rt'
        → rt'.fence_idx < rt'.fences.length) := by
  have hlen : 0 < rt.fences.length := List.length_pos.mpr hne
  constructor
  · intro rt' h
    by_cases hrec : ctx.is_recording
    · have hid : (ctx.start_recording).1 = ctx := by
        simp [VKContext.start_recording, hrec]
      rw [hid, hrt] at h
      obtain rfl := Option.some.inj h
      exact hvalid
    · rw [Bool.not_eq_true] at hrec
      by_cases hfull : (if rt.last_used_frame ≠ ctx.frame_timestamp
            then 0 else rt.cmd_buffer_idx)
          = (rt.cmd_buffers.getD ctx.current_frame_idx []).length
      · rw [start_recording_grow_run ctx rt hrec hrt hfull] at h
        obtain rfl := Option.some.inj h
        simp [List.length_take, List.length_drop]
        omega
      · rw [start_recording_nogrow_run ctx rt hrec hrt hfull] at h
        obtain rfl := Option.some.inj h
        simpa using hvalid
  · intro rt' h
    by_cases hrec : ctx.is_recording
    · rw [stop_recording_target_run ctx rt n1 n2 sync hrec hrt] at h
      obtain rfl := Option.some.inj h
      split <;> simp <;> split <;> omega
    · rw [Bool.not_eq_true] at hrec
      have hid : (ctx.stop_recording n1 n2 sync).1 = ctx := by
        simp [VKContext.stop_recording, hrec]
      rw [hid, hrt] at h
      obtain rfl := Option.some.inj h
      exact hvalid

theorem fence_idx_stays_valid_witness :
    sampleRT.fences ≠ [] ∧ sampleRT.fence_idx < sampleRT.fences.length
    ∧ ((∀ rt', (sampleCtx.start_recording).1.render_target = some rt'
          → rt'.fence_idx < rt'.fences.length)
      ∧ (∀ rt', (sampleCtx.stop_recording ⟨0, 0⟩ ⟨0, 0⟩ none).1.render_target = some rt'
          → rt'.fence_idx < rt'.fences.length)) :=
  ⟨by decide, by decide,
   fence_idx_stays_valid sampleCtx sampleRT ⟨0, 0⟩ ⟨0, 0⟩ none rfl
     (by decide) (by decide)⟩

/-- Recognizer for queue submissions in a trace. -/
def isSubmit : Effect → Bool
  | Effect.submit _ _ => true
  | _ => false

/-- Recognizer for request-queue pushes in a trace. -/
def isPush : Effect → Bool
  | Effect.pushRequest _ => true
  | _ => false

/-- C7: a successful stop_recording uses the fence at the target's
current fence_idx, ring-advances fence_idx (wrapping to zero at the pool
size), performs exactly one submission consisting of the pre-render
buffer followed by the primary buffer with that fence, appends the fence
to the current frame slot's fence list, and, with memory mapping
enabled, pushes a NotificationRequest with the two notifications and
that fence followed (only when a sync handle was produced) by a
PostSurfaceSyncRequest. -/
theorem stop_recording_submission (ctx : VKContext) (rt : VKRenderTarget)
    (n1 n2 : SceGxmNotification) (sync : Option Nat)
    (hrec : ctx.is_recording = true) (hrt : ctx.render_target = some rt)
    (hmm : ctx.features.support_memory_mapping = true) :
    (∃ rt', (ctx.stop_recording n1 n2 sync).1.render_target = some rt'
        ∧ rt'.fence_idx = (if rt.fence_idx + 1 = rt.fences.length
            then 0 else rt.fence_idx + 1))
    ∧ ((ctx.stop_recording n1 n2 sync).2.filter isSubmit)
        = [Effect.submit [ctx.prerender_cmd, ctx.render_cmd]
            (rt.fences.getD rt.fence_idx 0)]
    ∧ (ctx.stop_recording n1 n2 sync).1.frames
        = ctx.frames.set ctx.current_frame_idx
            ((ctx.frames.getD ctx.current_frame_idx [])
              ++ [rt.fences.getD rt.fence_idx 0])
    ∧ (ctx.stop_recording n1 n2 sync).1.request_queue
        = ctx.request_queue
          ++ Request.notificationReq n1 n2 (rt.fences.getD rt.fence_idx 0)
            :: (match (if ctx.disable_surface_sync = false then sync else none) with
                | some info => [Request.postSurfaceSyncReq info]
                | none => []) := by
  refine ⟨⟨_, stop_recording_target_run ctx rt n1 n2 sync hrec hrt, ?_⟩, ?_, ?_, ?_⟩
  · split <;> rfl
  all_goals
    cases sync <;>
    by_cases h1 : ctx.is_in_query <;> by_cases h2 : ctx.in_renderpass <;>
      by_cases h3 : ctx.disable_surface_sync <;>
      simp [VKContext.stop_recording, VKContext.stop_render_pass, h1, h2, h3,
        hrec, hrt, hmm, isSubmit, List.filter_append] <;>
      split <;> simp [isSubmit, hmm, h3, hrt]

theorem stop_recording_submission_witness :
    (∃ rt', ((sampleCtx.start_recording).1.stop_recording ⟨3, 4⟩ ⟨0, 0⟩
          (some 99)).1.render_target = some rt'
        ∧ rt'.fence_idx = 1)
    ∧ (((sampleCtx.start_recording).1.stop_recording ⟨3, 4⟩ ⟨0, 0⟩ (some 99)).2.filter
          isSubmit)
        = [Effect.submit [21, 11] 30]
    ∧ ((sampleCtx.start_recording).1.stop_recording ⟨3, 4⟩ ⟨0, 0⟩
          (some 99)).1.request_queue
        = [Request.notificationReq ⟨3, 4⟩ ⟨0, 0⟩ 30, Request.postSurfaceSyncReq 99] := by
  have h := stop_recording_submission (sampleCtx.start_recording).1
    ((sampleCtx.start_recording).1.render_target.getD default) ⟨3, 4⟩ ⟨0, 0⟩ (some 99)
    (by decide) (by decide) (by decide)
  refine ⟨?_, ?_, ?_⟩
  · obtain ⟨rt', hrt', hfi⟩ := h.1
    exact ⟨rt', hrt', by rw [hfi]; decide⟩
  · rw [h.2.1]
    decide
  · rw [h.2.2.2]
    decide

/-- C9: with support_memory_mapping disabled, stop_recording leaves the
request queue unchanged and pushes nothing (no push effect appears in
the trace), while still ending both command buffers, performing the one
submission with the target's current fence, ring-advancing fence_idx and
clearing the recording flag. -/
theorem stop_recording_no_memory_mapping (ctx : VKContext) (rt : VKRenderTarget)
    (n1 n2 : SceGxmNotification) (sync : Option Nat)
    (hrec : ctx.is_recording = true) (hrt : ctx.render_target = some rt)
    (hmm : ctx.features.support_memory_mapping = false) :
    (ctx.stop_recording n1 n2 sync).1.request_queue = ctx.request_queue
    ∧ ((ctx.stop_recording n1 n2 sync).2.filter isPush) = []
    ∧ Effect.endCmdBuffer ctx.prerender_cmd ∈ (ctx.stop_recording n1 n2 sync).2
    ∧ Effect.endCmdBuffer ctx.render_cmd ∈ (ctx.stop_recording n1 n2 sync).2
    ∧ ((ctx.stop_recording n1 n2 sync).2.filter isSubmit)
        = [Effect.submit [ctx.prerender_cmd, ctx.render_cmd]
            (rt.fences.getD rt.fence_idx 0)]
    ∧ (∃ rt', (ctx.stop_recording n1 n2 sync).1.render_target = some rt'
        ∧ rt'.fence_idx = (if rt.fence_idx + 1 = rt.fences.length
            then 0 else rt.fence_idx + 1))
    ∧ (ctx.stop_recording n1 n2 sync).1.is_recording = false := by
  refine ⟨?_, ?_, ?_, ?_, ?_,
    ⟨_, stop_recording_target_run ctx rt n1 n2 sync hrec hrt, by split <;> rfl⟩, ?_⟩
  all_goals
    by_cases h1 : ctx.is_in_query <;> by_cases h2 : ctx.in_renderpass <;>
      simp [VKContext.stop_recording, VKContext.stop_render_pass, h1, h2,
        hrec, hrt, hmm, isPush, isSubmit, List.filter_append] <;>
      split <;> simp [isPush, isSubmit, hmm, hrt]

/-- A context with memory mapping disabled, recording in progress, used
to witness C9. -/
def sampleCtxNoMM : VKContext :=
  { render_target := some sampleRT, frame_timestamp := 5,
    current_frame_idx := 1, frames := [[], []], next_id := 100,
    is_recording := true, render_cmd := 11, prerender_cmd := 21,
    request_queue := [Request.frameDoneReq 4],
    features := { support_memory_mapping := false, use_mask_bit := false } }

theorem stop_recording_no_memory_mapping_witness :
    (sampleCtxNoMM.stop_recording ⟨3, 4⟩ ⟨0, 0⟩ (some 99)).1.request_queue
        = sampleCtxNoMM.request_queue
    ∧ ((sampleCtxNoMM.stop_recording ⟨3, 4⟩ ⟨0, 0⟩ (some 99)).2.filter isPush) = []
    ∧ (sampleCtxNoMM.stop_recording ⟨3, 4⟩ ⟨0, 0⟩ (some 99)).1.is_recording = false := by
  have h := stop_recording_no_memory_mapping sampleCtxNoMM sampleRT ⟨3, 4⟩ ⟨0, 0⟩
    (some 99) rfl rfl rfl
  exact ⟨h.1, h.2.1, h.2.2.2.2.2.2⟩

/-- Recognizer for render-pass cache lookups in a trace. -/
def isRetrieveRP : Effect → Bool
  | Effect.retrieveRenderPass _ _ => true
  | _ => false

/-- Recognizer for framebuffer cache lookups in a trace. -/
def isRetrieveFB : Effect → Bool
  | Effect.retrieveFramebuffer _ _ _ _ _ => true
  | _ => false

lemma start_recording_filter_retrieve (ctx : VKContext) :
    (ctx.start_recording).2.filter isRetrieveRP = []
    ∧ (ctx.start_recording).2.filter isRetrieveFB = [] := by
  by_cases h : ctx.is_recording
  · simp [VKContext.start_recording, h, isRetrieveRP, isRetrieveFB]
  · cases hrt : ctx.render_target with
    | none =>
      simp [VKContext.start_recording, h, hrt, isRetrieveRP, isRetrieveFB]
    | some rt =>
      by_cases hf : rt.last_used_frame = ctx.frame_timestamp <;>
        by_cases ht : ctx.record.two_sided <;>
        simp [VKContext.start_recording, h, hrt, hf, ht, isRetrieveRP, isRetrieveFB,
          List.filter_append] <;>
        split <;> simp [isRetrieveRP, isRetrieveFB]

lemma start_render_pass_filter_retrieve (ctx : VKContext) :
    (ctx.start_render_pass).2.filter isRetrieveRP = []
    ∧ (ctx.start_render_pass).2.filter isRetrieveFB = [] := by
  by_cases h : ctx.in_renderpass
  · simp [VKContext.start_render_pass, h, isRetrieveRP, isRetrieveFB]
  · have hrc := start_recording_filter_retrieve ctx
    by_cases h2 : ctx.is_recording <;>
      simp [VKContext.start_render_pass, h, h2, List.filter_append,
        hrc.1, hrc.2, isRetrieveRP, isRetrieveFB]

lemma start_render_pass_no_retrieve (ctx : VKContext) :
    ∀ e ∈ (ctx.start_render_pass).2, ¬isRetrieveRP e = true ∧ ¬ isRetrieveFB e = true := by
  intro e he
  have h1 := (start_render_pass_filter_retrieve ctx).1
  have h2 := (start_render_pass_filter_retrieve ctx).2
  rw [List.filter_eq_nil_iff] at h1 h2
  exact ⟨h1 e he, h2 e he⟩

lemma set_context_prep_null (ctx : VKContext) (rt : VKRenderTarget) (ext : Ext)
    (hnull : ctx.record.color_surface.data_address = 0) :
    (set_context_prep ctx (some rt) ext).vk_format = VkFormat.r8g8b8a8Unorm
    ∧ (set_context_prep ctx (some rt) ext).color_surface_fin = none
    ∧ (set_context_prep ctx (some rt) ext).ctx.record.is_gamma_corrected = false
    ∧ (set_context_prep ctx (some rt) ext).ctx.record.color_surface.downscale = false
    ∧ (set_context_prep ctx (some rt) ext).ctx.record.is_maskupdate = false
    ∧ (set_context_prep ctx (some rt) ext).ctx.record.color_base_format
        = SCE_GXM_COLOR_BASE_FORMAT_U8U8U8U8 := by
  refine ⟨?_, ?_, ?_, ?_, ?_, ?_⟩ <;> simp [set_context_prep, hnull]

lemma set_context_record_eq (ctx : VKContext) (rt : VKRenderTarget) (ext : Ext) :
    (set_context ctx (some rt) ext).1.record
      = (set_context_prep ctx (some rt) ext).ctx.record := by
  obtain ⟨rt1, h1, hw, hh, hm, hrecd, hflag⟩ :=
    start_recording_preserves (set_context_prep ctx (some rt) ext).ctx _
      (set_context_prep_target ctx rt ext)
  obtain ⟨hl1, hl2, hl3⟩ := set_context_lookup_preserves
    ((set_context_prep ctx (some rt) ext).ctx.start_recording).1
    (set_context_prep ctx (some rt) ext) ext
  have hflag2 : (set_context_lookup
      ((set_context_prep ctx (some rt) ext).ctx.start_recording).1
      (set_context_prep ctx (some rt) ext) ext).1.is_recording = true := by
    rw [hl3, hflag]
  obtain ⟨hp1, hp2, hp3⟩ := start_render_pass_preserves _ hflag2
  show (set_context ctx (some rt) ext).1.record = _
  simp only [set_context]
  rw [hp2, hl2, hrecd]

/-- C8: for a set_context call whose configured color surface has a
null backing address, the render pass is requested with the default
8-bit unorm format, gamma correction is disabled, the downscale and
mask-update flags are reset, the color base format is reset to
U8U8U8U8, and the framebuffer lookup receives a null color-surface
pointer. -/
theorem set_context_null_color_surface (ctx : VKContext) (rt : VKRenderTarget)
    (ext : Ext) (hnull : ctx.record.color_surface.data_address = 0) :
    (set_context ctx (some rt) ext).1.record.is_gamma_corrected = false
    ∧ (set_context ctx (some rt) ext).1.record.color_surface.downscale = false
    ∧ (set_context ctx (some rt) ext).1.record.is_maskupdate = false
    ∧ (set_context ctx (some rt) ext).1.record.color_base_format
        = SCE_GXM_COLOR_BASE_FORMAT_U8U8U8U8
    ∧ (∃ zls, ((set_context ctx (some rt) ext).2.filter isRetrieveRP)
        = [Effect.retrieveRenderPass VkFormat.r8g8b8a8Unorm zls])
    ∧ (∃ ds rp w h, ((set_context ctx (some rt) ext).2.filter isRetrieveFB)
        = [Effect.retrieveFramebuffer none ds rp w h]) := by
  obtain ⟨hfmt, hcol, hg, hd, hmk, hbase⟩ := set_context_prep_null ctx rt ext hnull
  have hrecord := set_context_record_eq ctx rt ext
  have hrc := start_recording_filter_retrieve (set_context_prep ctx (some rt) ext).ctx
  have hrp := start_render_pass_filter_retrieve
    (set_context_lookup
      ((set_context_prep ctx (some rt) ext).ctx.start_recording).1
      (set_context_prep ctx (some rt) ext) ext).1
  refine ⟨by rw [hrecord]; exact hg, by rw [hrecord]; exact hd,
    by rw [hrecord]; exact hmk, by rw [hrecord]; exact hbase, ?_, ?_⟩
  · refine ⟨((set_context_prep ctx (some rt) ext).ctx.start_recording).1.record.depth_stencil_surface.zlsControl, ?_⟩
    by_cases hmask : ((set_context_prep ctx (some rt)
        ext).ctx.start_recording).1.features.use_mask_bit <;>
      · simp only [set_context, List.filter_append, List.filter_cons]
        rw [← hfmt]
        simp [set_context_lookup, isRetrieveRP, hrc.1, hrp.1, List.filter_append,
          hmask]
        intro a ha
        simpa [isRetrieveRP] using (start_render_pass_no_retrieve _ a ha).1
  · refine ⟨(set_context_prep ctx (some rt) ext).ds_fin,
      ext.retrieve_render_pass (set_context_prep ctx (some rt) ext).vk_format
        ((set_context_prep ctx (some rt) ext).ctx.start_recording).1.record.depth_stencil_surface.zlsControl,
      (((set_context_prep ctx (some rt) ext).ctx.start_recording).1.render_target.getD
        default).width,
      (((set_context_prep ctx (some rt) ext).ctx.start_recording).1.render_target.getD
        default).height, ?_⟩
    by_cases hmask : ((set_context_prep ctx (some rt)
        ext).ctx.start_recording).1.features.use_mask_bit <;>
      · simp only [set_context, List.filter_append, List.filter_cons]
        rw [← hcol]
        simp [set_context_lookup, isRetrieveFB, hrc.2, hrp.2, List.filter_append,
          hmask]
        intro a ha
        simpa [isRetrieveFB] using (start_render_pass_no_retrieve _ a ha).2

theorem set_context_null_color_surface_witness :
    (set_context sampleCtx (some sampleRT) sampleExt).1.record.is_gamma_corrected = false
    ∧ (set_context sampleCtx (some sampleRT)
        sampleExt).1.record.color_surface.downscale = false
    ∧ (∃ zls, ((set_context sampleCtx (some sampleRT) sampleExt).2.filter isRetrieveRP)
        = [Effect.retrieveRenderPass VkFormat.r8g8b8a8Unorm zls])
    ∧ (∃ ds rp w h, ((set_context sampleCtx (some sampleRT) sampleExt).2.filter
          isRetrieveFB)
        = [Effect.retrieveFramebuffer none ds rp w h]) := by
  have h := set_context_null_color_surface sampleCtx sampleRT sampleExt rfl
  exact ⟨h.1, h.2.1, h.2.2.2.2.1, h.2.2.2.2.2⟩

end Vita3K
